import Mathlib

/-! Storageos go-api, volume and user resource operations.

A shallow embedding of `volume.go`, `user.go` and the `FakeRoundTripper` test
double of `client_test.go`.

Go's `(value, error)` results are pairs of options (`none` is Go's `nil`), so
that every combination the Go code could return, `(nil, nil)` included, can be
written down.  The dispatcher `Client.do`, the path builders, `queryString`,
`IsUUID` (all of `client.go`) and the JSON decoder are not part of the embedded
sources: they are fields of `Env`, and every theorem quantifies over them.
-/

namespace Storageos

/-! ## Errors -/

/-- Go `error` values that the embedded code can tell apart.  `apiError` is a
`*Error` (the classified protocol error with its `Status` and `Message`); the
next three are the package-level sentinels of `volume.go` and `user.go`; the
two after them are the sentinels of Go's `context` package; `other` is any
other error value (network failure, path validation, JSON decoding). -/
inductive GoError where
  | apiError (Status : Int) (Message : String)
  | ErrNoSuchVolume
  | ErrVolumeInUse
  | ErrNoSuchUser
  | DeadlineExceeded
  | Canceled
  | other (text : String)
  deriving DecidableEq, Repr

/-- Go's `http.StatusNotFound`. -/
def StatusNotFound : Int := 404

/-- Go's `http.StatusConflict`. -/
def StatusConflict : Int := 409

/-- The type assertion `err.(*Error)`: the status of a protocol error, nothing
for every other error value. -/
def GoError.asError : GoError → Option Int
  | .apiError s _ => some s
  | _ => none

/-! ## Options and dispatcher calls -/

/-- A `context.Context` handle, identified by a number. -/
structure Context where
  id : Nat
  deriving DecidableEq, Repr

/-- The fields of `types.ListOptions` that the operations read. -/
structure ListOptions where
  FieldSelector : String
  LabelSelector : String
  Namespace : String
  Context : Option Context
  deriving DecidableEq, Repr

/-- The fields of `types.VolumeCreateOptions` that the operations read. -/
structure VolumeCreateOptions where
  Namespace : String
  Context : Option Context
  deriving DecidableEq, Repr

/-- The fields of `types.VolumeUpdateOptions` that the operations read. -/
structure VolumeUpdateOptions where
  ID : String
  Name : String
  Namespace : String
  Context : Option Context
  deriving DecidableEq, Repr

/-- The fields of `types.UserCreateOptions` that the operations read. -/
structure UserCreateOptions where
  Context : Option Context
  deriving DecidableEq, Repr

/-- The fields of `types.DeleteOptions` that the operations read. -/
structure DeleteOptions where
  Name : String
  deriving DecidableEq, Repr

/-- The values stored in the `data interface{}` field of `doOptions`. -/
inductive Data where
  | volumeCreate (opts : VolumeCreateOptions)
  | volumeUpdate (opts : VolumeUpdateOptions)
  | userCreate (opts : UserCreateOptions)
  deriving DecidableEq, Repr

/-- The per-call options `doOptions`.  `values` is a `url.Values`; `none` is
the nil map of the zero value. -/
structure doOptions where
  data : Option Data := none
  fieldSelector : String := ""
  labelSelector : String := ""
  namespace_ : String := ""
  values : Option (List (String × List String)) := none
  context : Option Context := none
  deriving DecidableEq, Repr

/-- One invocation of the dispatcher: `c.do(method, path, doOptions)`. -/
structure Call where
  method : String
  path : String
  opts : doOptions
  deriving DecidableEq, Repr

/-- The dispatcher invocations made so far, oldest first. -/
abbrev Trace := List Call

/-! ## HTTP headers and responses -/

/-- Bytes accepted by `validHeaderFieldByte` of `net/textproto`: the token
characters of RFC 7230. -/
def validHeaderFieldByte (c : Char) : Bool :=
  c.isAlphanum ||
    [33, 35, 36, 37, 38, 39, 42, 43, 45, 46, 94, 95, 96, 124, 126].contains c.toNat

/-- The rewriting loop of `canonicalMIMEHeaderKey`: upper case for the first
letter and for each letter after a dash, lower case for every other letter. -/
def canonicalLoop : Bool → List Char → List Char
  | _, [] => []
  | upper, c :: cs =>
    let c1 := if upper && c.isLower then c.toUpper
      else if !upper && c.isUpper then c.toLower else c
    c1 :: canonicalLoop (c1 == '-') cs

/-- Go's `textproto.CanonicalMIMEHeaderKey`: a key made of header-field bytes
only is put in canonical form, any other key is returned unchanged. -/
def CanonicalMIMEHeaderKey (s : String) : String :=
  if s.data.all validHeaderFieldByte then String.mk (canonicalLoop true s.data) else s

/-- A `http.Header`, a map from canonical key to values, as an association
list with at most one entry per key. -/
abbrev Header := List (String × List String)

/-- The map assignment `h[k] = vs`. -/
def Header.assign (h : Header) (k : String) (vs : List String) : Header :=
  (k, vs) :: h.filter (fun e => e.1 != k)

/-- Go's `Header.Set`: `h[CanonicalMIMEHeaderKey(key)] = []string{value}`. -/
def Header.Set (h : Header) (key value : String) : Header :=
  Header.assign h (CanonicalMIMEHeaderKey key) [value]

/-- Go's `Header.Get`: the first value stored under the canonical form of
`key`, the empty string when there is none. -/
def Header.Get (h : Header) (key : String) : String :=
  match h.lookup (CanonicalMIMEHeaderKey key) with
  | some (v :: _) => v
  | _ => ""

/-- The parts of a `http.Request` the test double's callers look at. -/
structure Request where
  Method : String
  URL : String
  deriving DecidableEq, Repr

/-- The parts of a `http.Response` the code reads or writes; `Body` is the
whole content of the body reader. -/
structure Response where
  StatusCode : Int
  Body : String
  Header : Header
  deriving DecidableEq, Repr

/-! ## The environment of the resource operations -/

/-- Everything the resource operations call that lives outside `volume.go` and
`user.go`.  `outcome` is what the dispatcher returns for a call (a response or
an error); the path builders, `queryString` and `IsUUID` are those of
`client.go`; the `decode*` fields are `json.NewDecoder(body).Decode(&v)` for
each target `v` the operations declare: a decode error, or the value left in
`v` (a pointer or slice left unset is `none`).  `Vol` and `Usr` stand for
`types.Volume` and `types.User`. -/
structure Env (Vol Usr : Type) where
  outcome : Call → Except GoError Response
  namespacedPath : String → String → Except GoError String
  namespacedRefPath : String → String → String → Except GoError String
  queryString : ListOptions → String
  IsUUID : String → Bool
  decodeVolumes : String → Except GoError (Option (List Vol))
  decodeVolume : String → Except GoError Vol
  decodeUsersData : String → Except GoError (Option (List (Option Usr)))
  decodeUserData : String → Except GoError (Option Usr)
  decodeUser : String → Except GoError Usr

variable {Vol Usr : Type}

/-- The dispatcher `c.do(method, path, doOptions)`: it returns the outcome of
the call and is recorded in the trace. -/
def clientDo (env : Env Vol Usr) (method path : String) (o : doOptions) (t : Trace) :
    Except GoError Response × Trace :=
  (env.outcome ⟨method, path, o⟩, t ++ [⟨method, path, o⟩])

/-! ## volume.go -/

/-- The package variable `VolumeAPIPrefix`. -/
def VolumeAPIPrefix : String := "volumes"

/-- `Client.VolumeList`. -/
def VolumeList (env : Env Vol Usr) (opts : ListOptions) (t : Trace) :
    (Option (List Vol) × Option GoError) × Trace :=
  match env.namespacedPath opts.Namespace VolumeAPIPrefix with
  | .error err => ((none, some err), t)
  | .ok path =>
    match clientDo env "GET" (path ++ "?" ++ env.queryString opts) { context := opts.Context } t with
    | (.error err, t1) => ((none, some err), t1)
    | (.ok resp, t1) =>
      match env.decodeVolumes resp.Body with
      | .error err => ((none, some err), t1)
      | .ok volumes => ((volumes, none), t1)

/-- `Client.Volume`. -/
def Volume (env : Env Vol Usr) (ns ref : String) (t : Trace) :
    (Option Vol × Option GoError) × Trace :=
  match env.namespacedRefPath ns VolumeAPIPrefix ref with
  | .error err => ((none, some err), t)
  | .ok path =>
    match clientDo env "GET" path {} t with
    | (.error err, t1) =>
      if err.asError = some StatusNotFound then ((none, some .ErrNoSuchVolume), t1)
      else ((none, some err), t1)
    | (.ok resp, t1) =>
      match env.decodeVolume resp.Body with
      | .error err => ((none, some err), t1)
      | .ok volume => ((some volume, none), t1)

/-- `Client.VolumeCreate`. -/
def VolumeCreate (env : Env Vol Usr) (opts : VolumeCreateOptions) (t : Trace) :
    (Option Vol × Option GoError) × Trace :=
  match env.namespacedPath opts.Namespace VolumeAPIPrefix with
  | .error err => ((none, some err), t)
  | .ok path =>
    match clientDo env "POST" path { data := some (.volumeCreate opts), context := opts.Context } t with
    | (.error err, t1) => ((none, some err), t1)
    | (.ok resp, t1) =>
      match env.decodeVolume resp.Body with
      | .error err => ((none, some err), t1)
      | .ok volume => ((some volume, none), t1)

/-- The reference `Client.VolumeUpdate` addresses: `opts.Name`, replaced by
`opts.ID` when that is a UUID. -/
def updateRef (env : Env Vol Usr) (opts : VolumeUpdateOptions) : String :=
  if env.IsUUID opts.ID then opts.ID else opts.Name

/-- `Client.VolumeUpdate`. -/
def VolumeUpdate (env : Env Vol Usr) (opts : VolumeUpdateOptions) (t : Trace) :
    (Option Vol × Option GoError) × Trace :=
  let ref := updateRef env opts
  match env.namespacedRefPath opts.Namespace VolumeAPIPrefix ref with
  | .error err => ((none, some err), t)
  | .ok path =>
    match clientDo env "PUT" path { data := some (.volumeUpdate opts), context := opts.Context } t with
    | (.error err, t1) => ((none, some err), t1)
    | (.ok resp, t1) =>
      match env.decodeVolume resp.Body with
      | .error err => ((none, some err), t1)
      | .ok volume => ((some volume, none), t1)

/-- `Client.VolumeDelete`. -/
def VolumeDelete (env : Env Vol Usr) (ns ref : String) (t : Trace) :
    Option GoError × Trace :=
  match env.namespacedRefPath ns VolumeAPIPrefix ref with
  | .error err => (some err, t)
  | .ok path =>
    match clientDo env "DELETE" path {} t with
    | (.error err, t1) =>
      match err.asError with
      | some status =>
        if status = StatusNotFound then (some .ErrNoSuchVolume, t1)
        else if status = StatusConflict then (some .ErrVolumeInUse, t1)
        else (none, t1)
      | none => (none, t1)
    | (.ok _, t1) => (none, t1)

/-! ## user.go -/

/-- The package variable `UserAPIPrefix`. -/
def UserAPIPrefix : String := "users"

/-- The `doOptions` that `Client.UserList` builds from its options. -/
def userListOptions (opts : ListOptions) : doOptions :=
  let listOpts : doOptions :=
    { fieldSelector := opts.FieldSelector
      labelSelector := opts.LabelSelector
      namespace_ := opts.Namespace
      context := opts.Context }
  if opts.LabelSelector ≠ "" then
    { listOpts with values := some [("labelSelector", [opts.LabelSelector])] }
  else listOpts

/-- `Client.UserList`. -/
def UserList (env : Env Vol Usr) (opts : ListOptions) (t : Trace) :
    (Option (List (Option Usr)) × Option GoError) × Trace :=
  match clientDo env "GET" UserAPIPrefix (userListOptions opts) t with
  | (.error err, t1) => ((none, some err), t1)
  | (.ok resp, t1) =>
    match env.decodeUsersData resp.Body with
    | .error err => ((none, some err), t1)
    | .ok users => ((users, none), t1)

/-- `Client.User`. -/
def User (env : Env Vol Usr) (username : String) (t : Trace) :
    (Option Usr × Option GoError) × Trace :=
  let path := UserAPIPrefix ++ "/" ++ username
  match clientDo env "GET" path {} t with
  | (.error err, t1) =>
    if err.asError = some StatusNotFound then ((none, some .ErrNoSuchUser), t1)
    else ((none, some err), t1)
  | (.ok resp, t1) =>
    match env.decodeUserData resp.Body with
    | .error err => ((none, some err), t1)
    | .ok user => ((user, none), t1)

/-- `Client.UserCreate`. -/
def UserCreate (env : Env Vol Usr) (opts : UserCreateOptions) (t : Trace) :
    (Option Usr × Option GoError) × Trace :=
  match clientDo env "POST" UserAPIPrefix { data := some (.userCreate opts), context := opts.Context } t with
  | (.error err, t1) => ((none, some err), t1)
  | (.ok resp, t1) =>
    match env.decodeUser resp.Body with
    | .error err => ((none, some err), t1)
    | .ok user => ((some user, none), t1)

/-- `Client.UserDelete`. -/
def UserDelete (env : Env Vol Usr) (opts : DeleteOptions) (t : Trace) :
    Option GoError × Trace :=
  match clientDo env "DELETE" (UserAPIPrefix ++ "/" ++ opts.Name) {} t with
  | (.error err, t1) =>
    match err.asError with
    | some status =>
      if status = StatusNotFound then (some .ErrNoSuchUser, t1) else (none, t1)
    | none => (none, t1)
  | (.ok _, t1) => (none, t1)

/-! ## client_test.go: the recording transport -/

/-- The test double `FakeRoundTripper`.  `header` is a Go map: its entries have
pairwise different keys, and the list gives them in the order the `range` loop
of `RoundTrip` visits them, an order Go leaves unspecified. -/
structure FakeRoundTripper where
  message : String
  status : Int
  header : List (String × String)
  requests : List Request
  deriving DecidableEq, Repr

/-- `FakeRoundTripper.RoundTrip`: the request is appended to the record and a
fresh response is built from the configured status, message and headers. -/
def FakeRoundTripper.RoundTrip (rt : FakeRoundTripper) (r : Request) :
    (Response × Option GoError) × FakeRoundTripper :=
  let rt1 := { rt with requests := rt.requests ++ [r] }
  let res : Response := { StatusCode := rt.status, Body := rt.message, Header := [] }
  let res := rt.header.foldl (fun res kv => { res with Header := res.Header.Set kv.1 kv.2 }) res
  ((res, none), rt1)

/-- `FakeRoundTripper.Reset`. -/
def FakeRoundTripper.Reset (rt : FakeRoundTripper) : FakeRoundTripper :=
  { rt with requests := [] }

/-- A run of `RoundTrip` calls, one per request and in the order given: what
each call returned, and the transport afterwards. -/
def FakeRoundTripper.roundTrips (rt : FakeRoundTripper) :
    List Request → List (Response × Option GoError) × FakeRoundTripper
  | [] => ([], rt)
  | r :: rs =>
    let step := rt.RoundTrip r
    let rest := FakeRoundTripper.roundTrips step.2 rs
    (step.1 :: rest.1, rest.2)

/-! ## A concrete environment

Used to evaluate the operations on explicit inputs. -/

/-- Modelled from the spec: `namespacedPath` of `client.go`, which is not among
the embedded sources, after the URL shape `<resource-prefix>[/<namespace>]`
the spec documents.  The spec does not say which inputs it rejects; this one
rejects none, and serves only to evaluate the operations on concrete inputs
with a namespace. -/
def sampleNamespacedPath (ns objectType : String) : Except GoError String :=
  if ns = "" then .ok objectType else .ok (objectType ++ "/" ++ ns)

/-- Modelled from the spec: `namespacedRefPath` of `client.go`, which is not
among the embedded sources, after the URL shape
`<resource-prefix>[/<namespace>]/<ref>` the spec documents.  The spec does not
say which inputs it rejects; this one rejects an empty reference. -/
def sampleNamespacedRefPath (ns objectType ref : String) : Except GoError String :=
  if ref = "" then .error (.other "reference not set")
  else if ns = "" then .ok (objectType ++ "/" ++ ref)
  else .ok (objectType ++ "/" ++ ns ++ "/" ++ ref)

/-- Modelled from the spec: `queryString` of `client.go`, which is not among
the embedded sources, on `types.ListOptions`: `key=value` for each string field
that is not empty, in declaration order and under the lower-cased field name,
joined by `&`; the empty string when every field is empty. -/
def sampleQueryString (opts : ListOptions) : String :=
  "&".intercalate
    (([("fieldselector", opts.FieldSelector), ("labelselector", opts.LabelSelector),
        ("namespace", opts.Namespace)].filter (fun kv => kv.2 != "")).map
      (fun kv => kv.1 ++ "=" ++ kv.2))

/-- Modelled from the spec: `IsUUID` of `client.go`, which is not among the
embedded sources.  The spec says only that a reference is a name or a UUID;
this one accepts the 36-character form with a dash at positions 8, 13, 18 and
23. -/
def sampleIsUUID (s : String) : Bool :=
  s.length == 36 && [8, 13, 18, 23].all (fun i => s.data.get? i == some '-')

/-- A decoder into a `types.Volume` or `types.User` value, which is a name
here: the body is the name, and an empty body is the decoder's end-of-input
error. -/
def sampleDecode (body : String) : Except GoError String :=
  if body = "" then .error (.other "EOF") else .ok body

/-- A decoder into the envelope `struct { User *types.User }` keyed `data`:
the body `{}` has no `data` field and leaves the pointer unset. -/
def sampleDecodeData (body : String) : Except GoError (Option String) :=
  if body = "" then .error (.other "EOF")
  else if body = "{}" then .ok none
  else .ok (some body)

/-- The environment in which the dispatcher answers every call with `result`. -/
def sampleEnv (result : Except GoError Response) : Env String String where
  outcome := fun _ => result
  namespacedPath := sampleNamespacedPath
  namespacedRefPath := sampleNamespacedRefPath
  queryString := sampleQueryString
  IsUUID := sampleIsUUID
  decodeVolumes := fun body => (sampleDecode body).map (fun v => some [v])
  decodeVolume := sampleDecode
  decodeUsersData := fun body => (sampleDecode body).map (fun u => some [some u])
  decodeUserData := sampleDecodeData
  decodeUser := sampleDecode

/-- A successful (200) response with the given body. -/
def okResponse (body : String) : Except GoError Response :=
  .ok { StatusCode := 200, Body := body, Header := [] }

/-- The sample environment with path builders that validate the namespace: an
empty namespace is rejected with an error, every other input is handled as in
`sampleEnv`.  The dispatcher still answers every call with `result`. -/
def validatingEnv (result : Except GoError Response) : Env String String :=
  { sampleEnv result with
    namespacedPath := fun ns objectType =>
      if ns = "" then .error (.other "namespace not set")
      else sampleNamespacedPath ns objectType
    namespacedRefPath := fun ns objectType ref =>
      if ns = "" then .error (.other "namespace not set")
      else sampleNamespacedRefPath ns objectType ref }

/-! ## Shared lemmas -/

theorem asError_eq_some_iff (e : GoError) (s : Int) :
    e.asError = some s ↔ ∃ m, e = .apiError s m := by
  cases e <;> simp [GoError.asError]

theorem asError_ne_of_forall_ne (e : GoError) (s : Int) (h : ∀ m, e ≠ .apiError s m) :
    e.asError ≠ some s := by
  intro hs
  obtain ⟨m, hm⟩ := (asError_eq_some_iff e s).1 hs
  exact h m hm

/-! ## Error handling of the delete operations -/

/-- C1: evaluation of both delete operations when the dispatcher fails with a
protocol error of status 500: `VolumeDelete` and `UserDelete` both invoke the
dispatcher once and return a nil error, so the failed delete is reported as
success. -/
theorem delete_reports_success_on_status_500 :
    VolumeDelete (sampleEnv (.error (.apiError 500 "internal error"))) "default" "vol1" []
        = (none, [⟨"DELETE", "volumes/default/vol1", {}⟩]) ∧
      UserDelete (sampleEnv (.error (.apiError 500 "internal error"))) ⟨"alice"⟩ []
        = (none, [⟨"DELETE", "users/alice", {}⟩]) := by
  constructor <;> rfl

/-- C2: for every namespace and reference whose path builds, `VolumeDelete`
returns `ErrNoSuchVolume` exactly when the dispatcher fails with a `*Error` of
status 404, and `ErrVolumeInUse` exactly when it fails with a `*Error` of
status 409. -/
theorem VolumeDelete_sentinel_iff (env : Env Vol Usr) (ns ref path : String) (t : Trace)
    (hpath : env.namespacedRefPath ns VolumeAPIPrefix ref = .ok path) :
    ((VolumeDelete env ns ref t).1 = some .ErrNoSuchVolume ↔
        ∃ m, env.outcome ⟨"DELETE", path, {}⟩ = .error (.apiError 404 m)) ∧
      ((VolumeDelete env ns ref t).1 = some .ErrVolumeInUse ↔
        ∃ m, env.outcome ⟨"DELETE", path, {}⟩ = .error (.apiError 409 m)) := by
  cases hout : env.outcome ⟨"DELETE", path, {}⟩ with
  | ok resp => simp [VolumeDelete, clientDo, hpath, hout]
  | error e =>
    cases e with
    | apiError s m =>
      by_cases h4 : s = 404
      · subst h4
        simp [VolumeDelete, clientDo, hpath, hout, GoError.asError, StatusNotFound]
      · by_cases h9 : s = 409
        · subst h9
          simp [VolumeDelete, clientDo, hpath, hout, GoError.asError, StatusNotFound,
            StatusConflict]
        · simp [VolumeDelete, clientDo, hpath, hout, GoError.asError, StatusNotFound,
            StatusConflict, h4, h9]
    | _ => simp [VolumeDelete, clientDo, hpath, hout, GoError.asError]

/-- Witness of C2: a volume delete answered with 404 returns the not-found
sentinel. -/
theorem VolumeDelete_sentinel_iff_witness :
    sampleNamespacedRefPath "default" VolumeAPIPrefix "vol1" = .ok "volumes/default/vol1" ∧
      (VolumeDelete (sampleEnv (.error (.apiError 404 "gone"))) "default" "vol1" []).1
        = some .ErrNoSuchVolume :=
  ⟨by rfl,
    (VolumeDelete_sentinel_iff (sampleEnv (.error (.apiError 404 "gone")))
      "default" "vol1" "volumes/default/vol1" [] (by rfl)).1.2 ⟨"gone", rfl⟩⟩

/-! ## Not-found translation -/

/-- C4: `VolumeList`, `VolumeCreate`, `VolumeUpdate`, `UserList` and
`UserCreate` return every error `e` of the dispatcher as exactly `e`, with a
nil result; `Volume` and `User` do the same for every `e` that is not a
`*Error` of status 404.  The volume operations reach the dispatcher once their
path is built. -/
theorem dispatcher_error_verbatim (env : Env Vol Usr) (e : GoError) (t : Trace)
    (lopts : ListOptions) (copts : VolumeCreateOptions) (uopts : VolumeUpdateOptions)
    (ucopts : UserCreateOptions) (ns ref username : String) :
    (∀ path, env.namespacedPath lopts.Namespace "volumes" = .ok path →
        env.outcome ⟨"GET", path ++ "?" ++ env.queryString lopts,
          { context := lopts.Context }⟩ = .error e →
        (VolumeList env lopts t).1 = (none, some e)) ∧
      (∀ path, env.namespacedPath copts.Namespace "volumes" = .ok path →
        env.outcome ⟨"POST", path,
          { data := some (.volumeCreate copts), context := copts.Context }⟩ = .error e →
        (VolumeCreate env copts t).1 = (none, some e)) ∧
      (∀ path, env.namespacedRefPath uopts.Namespace "volumes"
          (if env.IsUUID uopts.ID then uopts.ID else uopts.Name) = .ok path →
        env.outcome ⟨"PUT", path,
          { data := some (.volumeUpdate uopts), context := uopts.Context }⟩ = .error e →
        (VolumeUpdate env uopts t).1 = (none, some e)) ∧
      (env.outcome ⟨"GET", "users", userListOptions lopts⟩ = .error e →
        (UserList env lopts t).1 = (none, some e)) ∧
      (env.outcome ⟨"POST", "users",
          { data := some (.userCreate ucopts), context := ucopts.Context }⟩ = .error e →
        (UserCreate env ucopts t).1 = (none, some e)) ∧
      (∀ path, env.namespacedRefPath ns "volumes" ref = .ok path →
        env.outcome ⟨"GET", path, {}⟩ = .error e → (∀ m, e ≠ .apiError 404 m) →
        (Volume env ns ref t).1 = (none, some e)) ∧
      (env.outcome ⟨"GET", "users/" ++ username, {}⟩ = .error e → (∀ m, e ≠ .apiError 404 m) →
        (User env username t).1 = (none, some e)) := by
  refine ⟨?_, ?_, ?_, ?_, ?_, ?_, ?_⟩
  · intro path hpath hout
    simp [VolumeList, clientDo, VolumeAPIPrefix, hpath, hout]
  · intro path hpath hout
    simp [VolumeCreate, clientDo, VolumeAPIPrefix, hpath, hout]
  · intro path hpath hout
    simp [VolumeUpdate, updateRef, clientDo, VolumeAPIPrefix, hpath, hout]
  · intro hout
    simp [UserList, clientDo, UserAPIPrefix, hout]
  · intro hout
    simp [UserCreate, clientDo, UserAPIPrefix, hout]
  · intro path hpath hout h4
    have hne := asError_ne_of_forall_ne e 404 h4
    simp [Volume, clientDo, VolumeAPIPrefix, hpath, hout, StatusNotFound, hne]
  · intro hout h4
    have hne := asError_ne_of_forall_ne e 404 h4
    simp [User, clientDo, UserAPIPrefix, hout, StatusNotFound, hne]

/-- Witness of C4: every call failing with the deadline sentinel of the
cancellation handle. -/
theorem dispatcher_error_verbatim_witness :
    (VolumeList (sampleEnv (.error .DeadlineExceeded)) ⟨"", "", "default", none⟩ []).1
        = (none, some .DeadlineExceeded) ∧
      (VolumeCreate (sampleEnv (.error .DeadlineExceeded)) ⟨"default", none⟩ []).1
        = (none, some .DeadlineExceeded) ∧
      (VolumeUpdate (sampleEnv (.error .DeadlineExceeded)) ⟨"", "vol1", "default", none⟩ []).1
        = (none, some .DeadlineExceeded) ∧
      (UserList (sampleEnv (.error .DeadlineExceeded)) ⟨"", "", "default", none⟩ []).1
        = (none, some .DeadlineExceeded) ∧
      (UserCreate (sampleEnv (.error .DeadlineExceeded)) ⟨none⟩ []).1
        = (none, some .DeadlineExceeded) ∧
      (Volume (sampleEnv (.error .DeadlineExceeded)) "default" "vol1" []).1
        = (none, some .DeadlineExceeded) ∧
      (User (sampleEnv (.error .DeadlineExceeded)) "alice" []).1
        = (none, some .DeadlineExceeded) :=
  have h := dispatcher_error_verbatim (sampleEnv (.error .DeadlineExceeded)) .DeadlineExceeded []
    ⟨"", "", "default", none⟩ ⟨"default", none⟩ ⟨"", "vol1", "default", none⟩ ⟨none⟩
    "default" "vol1" "alice"
  ⟨h.1 "volumes/default" (by rfl) (by rfl), h.2.1 "volumes/default" (by rfl) (by rfl),
    h.2.2.1 "volumes/default/vol1" (by rfl) (by rfl), h.2.2.2.1 (by rfl), h.2.2.2.2.1 (by rfl),
    h.2.2.2.2.2.1 "volumes/default/vol1" (by rfl) (by rfl) (by simp),
    h.2.2.2.2.2.2 (by rfl) (by simp)⟩

/-! ## The delete operations drop every other error -/

/-- C7: `VolumeDelete`, its path built, returns nil for every dispatcher error
that is not a `*Error` of status 404 or 409, and `UserDelete` returns nil for
every dispatcher error that is not a `*Error` of status 404; in both cases the
dispatcher was invoked once. -/
theorem delete_swallows_other_errors (env : Env Vol Usr) (e : GoError) (t : Trace)
    (ns ref : String) (opts : DeleteOptions) :
    (∀ path, env.namespacedRefPath ns "volumes" ref = .ok path →
        env.outcome ⟨"DELETE", path, {}⟩ = .error e →
        (∀ m, e ≠ .apiError 404 m) → (∀ m, e ≠ .apiError 409 m) →
        VolumeDelete env ns ref t = (none, t ++ [⟨"DELETE", path, {}⟩])) ∧
      (env.outcome ⟨"DELETE", "users/" ++ opts.Name, {}⟩ = .error e →
        (∀ m, e ≠ .apiError 404 m) →
        UserDelete env opts t = (none, t ++ [⟨"DELETE", "users/" ++ opts.Name, {}⟩])) := by
  constructor
  · intro path hpath hout h4 h9
    cases e with
    | apiError s m =>
      have hs4 : s ≠ 404 := fun h => h4 m (by rw [h])
      have hs9 : s ≠ 409 := fun h => h9 m (by rw [h])
      simp [VolumeDelete, clientDo, VolumeAPIPrefix, hpath, hout, GoError.asError,
        StatusNotFound, StatusConflict, hs4, hs9]
    | _ => simp [VolumeDelete, clientDo, VolumeAPIPrefix, hpath, hout, GoError.asError]
  · intro hout h4
    cases e with
    | apiError s m =>
      have hs4 : s ≠ 404 := fun h => h4 m (by rw [h])
      simp [UserDelete, clientDo, UserAPIPrefix, hout, GoError.asError, StatusNotFound, hs4]
    | _ => simp [UserDelete, clientDo, UserAPIPrefix, hout, GoError.asError]

/-- Witness of C7: a 500 on a volume delete, a 409 on a user delete, and a
cancellation on either are all returned as nil. -/
theorem delete_swallows_other_errors_witness :
    VolumeDelete (sampleEnv (.error (.apiError 500 "internal error"))) "default" "vol1" []
        = (none, [] ++ [⟨"DELETE", "volumes/default/vol1", {}⟩]) ∧
      UserDelete (sampleEnv (.error (.apiError 409 "conflict"))) ⟨"alice"⟩ []
        = (none, [] ++ [⟨"DELETE", "users/" ++ "alice", {}⟩]) ∧
      VolumeDelete (sampleEnv (.error .Canceled)) "default" "vol1" []
        = (none, [] ++ [⟨"DELETE", "volumes/default/vol1", {}⟩]) ∧
      UserDelete (sampleEnv (.error .Canceled)) ⟨"alice"⟩ []
        = (none, [] ++ [⟨"DELETE", "users/" ++ "alice", {}⟩]) :=
  ⟨(delete_swallows_other_errors (sampleEnv (.error (.apiError 500 "internal error")))
      (.apiError 500 "internal error") [] "default" "vol1" ⟨"alice"⟩).1
      "volumes/default/vol1" (by rfl) (by rfl) (by simp) (by simp),
    (delete_swallows_other_errors (sampleEnv (.error (.apiError 409 "conflict")))
      (.apiError 409 "conflict") [] "default" "vol1" ⟨"alice"⟩).2 (by rfl) (by simp),
    (delete_swallows_other_errors (sampleEnv (.error .Canceled))
      .Canceled [] "default" "vol1" ⟨"alice"⟩).1
      "volumes/default/vol1" (by rfl) (by rfl) (by simp) (by simp),
    (delete_swallows_other_errors (sampleEnv (.error .Canceled))
      .Canceled [] "default" "vol1" ⟨"alice"⟩).2 (by rfl) (by simp)⟩

/-! ## Results of the pointer-returning operations -/

/-- C5 as stated fails for `User`: a 200 response whose body `{}` has no `data`
field decodes without error and leaves the envelope's pointer unset, so `User`
returns a nil pointer together with a nil error. -/
theorem User_nil_result_nil_error :
    (sampleEnv (okResponse "{}")).outcome ⟨"GET", "users/alice", {}⟩ = okResponse "{}" ∧
      (sampleEnv (okResponse "{}")).decodeUserData "{}" = .ok none ∧
      User (sampleEnv (okResponse "{}")) "alice" []
        = ((none, none), [⟨"GET", "users/alice", {}⟩]) := by
  refine ⟨?_, ?_, ?_⟩ <;> rfl

/-- C5, amended: `Volume`, `VolumeCreate`, `VolumeUpdate` and `UserCreate`
return a nil error exactly when they return a non-nil pointer; `User` returns a
nil pointer whenever its error is non-nil, and when the dispatcher and the
decoder both succeed it returns, with a nil error, the pointer the decoder left
in the envelope's `data` field, whatever that is. -/
theorem pointer_result_or_error (env : Env Vol Usr) (ns ref username : String)
    (copts : VolumeCreateOptions) (uopts : VolumeUpdateOptions) (ucopts : UserCreateOptions)
    (t : Trace) :
    ((Volume env ns ref t).1.2 = none ↔ (Volume env ns ref t).1.1 ≠ none) ∧
      ((VolumeCreate env copts t).1.2 = none ↔ (VolumeCreate env copts t).1.1 ≠ none) ∧
      ((VolumeUpdate env uopts t).1.2 = none ↔ (VolumeUpdate env uopts t).1.1 ≠ none) ∧
      ((UserCreate env ucopts t).1.2 = none ↔ (UserCreate env ucopts t).1.1 ≠ none) ∧
      ((User env username t).1.2 ≠ none → (User env username t).1.1 = none) ∧
      (∀ resp user, env.outcome ⟨"GET", "users/" ++ username, {}⟩ = .ok resp →
        env.decodeUserData resp.Body = .ok user → (User env username t).1 = (user, none)) := by
  refine ⟨?_, ?_, ?_, ?_, ?_, ?_⟩
  · cases hp : env.namespacedRefPath ns VolumeAPIPrefix ref with
    | error e => simp [Volume, hp]
    | ok path =>
      cases ho : env.outcome ⟨"GET", path, {}⟩ with
      | error e =>
        by_cases h4 : e.asError = some StatusNotFound <;> simp [Volume, clientDo, hp, ho, h4]
      | ok resp =>
        cases hd : env.decodeVolume resp.Body <;> simp [Volume, clientDo, hp, ho, hd]
  · cases hp : env.namespacedPath copts.Namespace VolumeAPIPrefix with
    | error e => simp [VolumeCreate, hp]
    | ok path =>
      cases ho : env.outcome ⟨"POST", path,
          { data := some (.volumeCreate copts), context := copts.Context }⟩ with
      | error e => simp [VolumeCreate, clientDo, hp, ho]
      | ok resp =>
        cases hd : env.decodeVolume resp.Body <;> simp [VolumeCreate, clientDo, hp, ho, hd]
  · cases hp : env.namespacedRefPath uopts.Namespace VolumeAPIPrefix (updateRef env uopts) with
    | error e => simp [VolumeUpdate, hp]
    | ok path =>
      cases ho : env.outcome ⟨"PUT", path,
          { data := some (.volumeUpdate uopts), context := uopts.Context }⟩ with
      | error e => simp [VolumeUpdate, clientDo, hp, ho]
      | ok resp =>
        cases hd : env.decodeVolume resp.Body <;> simp [VolumeUpdate, clientDo, hp, ho, hd]
  · cases ho : env.outcome ⟨"POST", UserAPIPrefix,
        { data := some (.userCreate ucopts), context := ucopts.Context }⟩ with
    | error e => simp [UserCreate, clientDo, ho]
    | ok resp =>
      cases hd : env.decodeUser resp.Body <;> simp [UserCreate, clientDo, ho, hd]
  · cases ho : env.outcome ⟨"GET", UserAPIPrefix ++ "/" ++ username, {}⟩ with
    | error e =>
      by_cases h4 : e.asError = some StatusNotFound <;> simp [User, clientDo, ho, h4]
    | ok resp =>
      cases hd : env.decodeUserData resp.Body <;> simp [User, clientDo, ho, hd]
  · intro resp user ho hd
    simp [User, clientDo, UserAPIPrefix, ho, hd]

/-- Witness of C5, amended: a user found, and a user response without `data`. -/
theorem pointer_result_or_error_witness :
    (User (sampleEnv (okResponse "alice")) "alice" []).1 = (some "alice", none) ∧
      (User (sampleEnv (okResponse "{}")) "bob" []).1 = (none, none) ∧
      (User (sampleEnv (.error .Canceled)) "alice" []).1.1 = none :=
  ⟨(pointer_result_or_error (sampleEnv (okResponse "alice")) "default" "vol1" "alice"
      ⟨"default", none⟩ ⟨"", "vol1", "default", none⟩ ⟨none⟩ []).2.2.2.2.2
      ⟨200, "alice", []⟩ (some "alice") (by rfl) (by rfl),
    (pointer_result_or_error (sampleEnv (okResponse "{}")) "default" "vol1" "bob"
      ⟨"default", none⟩ ⟨"", "vol1", "default", none⟩ ⟨none⟩ []).2.2.2.2.2
      ⟨200, "{}", []⟩ none (by rfl) (by rfl),
    (pointer_result_or_error (sampleEnv (.error .Canceled)) "default" "vol1" "alice"
      ⟨"default", none⟩ ⟨"", "vol1", "default", none⟩ ⟨none⟩ []).2.2.2.2.1 (by decide)⟩

/-! ## Requests of the user operations -/

/-- C8: each user operation invokes the dispatcher exactly once, under the
prefix `users`: `UserList` with GET and path `users`, `UserCreate` with POST
and path `users`, `User` with GET and path `users/` followed by the user name,
`UserDelete` with DELETE and path `users/` followed by `opts.Name`. -/
theorem user_operations_requests (env : Env Vol Usr) (lopts : ListOptions)
    (ucopts : UserCreateOptions) (username : String) (dopts : DeleteOptions) (t : Trace) :
    (UserList env lopts t).2 = t ++ [⟨"GET", "users", userListOptions lopts⟩] ∧
      (UserCreate env ucopts t).2
        = t ++ [⟨"POST", "users", { data := some (.userCreate ucopts), context := ucopts.Context }⟩] ∧
      (User env username t).2 = t ++ [⟨"GET", "users/" ++ username, {}⟩] ∧
      (UserDelete env dopts t).2 = t ++ [⟨"DELETE", "users/" ++ dopts.Name, {}⟩] := by
  refine ⟨?_, ?_, ?_, ?_⟩
  · cases ho : env.outcome ⟨"GET", "users", userListOptions lopts⟩ with
    | error e => simp [UserList, clientDo, ho, UserAPIPrefix]
    | ok resp =>
      cases hd : env.decodeUsersData resp.Body <;> simp [UserList, clientDo, ho, hd, UserAPIPrefix]
  · cases ho : env.outcome ⟨"POST", "users",
        { data := some (.userCreate ucopts), context := ucopts.Context }⟩ with
    | error e => simp [UserCreate, clientDo, ho, UserAPIPrefix]
    | ok resp =>
      cases hd : env.decodeUser resp.Body <;> simp [UserCreate, clientDo, ho, hd, UserAPIPrefix]
  · cases ho : env.outcome ⟨"GET", "users/" ++ username, {}⟩ with
    | error e =>
      by_cases h4 : e.asError = some StatusNotFound <;>
        simp [User, clientDo, ho, h4, UserAPIPrefix]
    | ok resp =>
      cases hd : env.decodeUserData resp.Body <;> simp [User, clientDo, ho, hd, UserAPIPrefix]
  · cases ho : env.outcome ⟨"DELETE", "users/" ++ dopts.Name, {}⟩ with
    | error e =>
      cases hs : e.asError with
      | none => simp [UserDelete, clientDo, ho, hs, UserAPIPrefix]
      | some s =>
        by_cases h4 : s = StatusNotFound <;> simp [UserDelete, clientDo, ho, hs, h4, UserAPIPrefix]
    | ok resp => simp [UserDelete, clientDo, ho, UserAPIPrefix]

/-! ## Paths of the volume operations -/

/-- The request of `VolumeList`: whenever the namespaced volumes path builds,
the dispatcher is invoked once, with GET and the path made of that namespaced
path, the separator `?` and `queryString(opts)`; the separator is appended
whether or not the query string is empty. -/
theorem VolumeList_path (env : Env Vol Usr) (opts : ListOptions) (path : String) (t : Trace)
    (hpath : env.namespacedPath opts.Namespace "volumes" = .ok path) :
    (VolumeList env opts t).2
        = t ++ [⟨"GET", path ++ "?" ++ env.queryString opts, { context := opts.Context }⟩] ∧
      (env.queryString opts = "" →
        (VolumeList env opts t).2 = t ++ [⟨"GET", path ++ "?", { context := opts.Context }⟩]) := by
  have hcall : (VolumeList env opts t).2
      = t ++ [⟨"GET", path ++ "?" ++ env.queryString opts, { context := opts.Context }⟩] := by
    cases ho : env.outcome
        ⟨"GET", path ++ "?" ++ env.queryString opts, { context := opts.Context }⟩ with
    | error e => simp [VolumeList, clientDo, VolumeAPIPrefix, hpath, ho]
    | ok resp =>
      cases hd : env.decodeVolumes resp.Body <;>
        simp [VolumeList, clientDo, VolumeAPIPrefix, hpath, ho, hd]
  refine ⟨hcall, ?_⟩
  intro hq
  rw [hcall, hq]
  simp

/-- C10: `VolumeUpdate` builds its path with `namespacedRefPath` from
`opts.Namespace`, the prefix `volumes` and the reference `opts.ID` when
`IsUUID(opts.ID)` holds, `opts.Name` otherwise.  When that path builds it
invokes the dispatcher once, with method PUT, that path, `opts` as the body
data and `opts.Context` as the cancellation handle; when building it fails
with `e`, the operation returns `e` and sends nothing. -/
theorem VolumeUpdate_request (env : Env Vol Usr) (opts : VolumeUpdateOptions) (t : Trace) :
    (∀ path, env.namespacedRefPath opts.Namespace "volumes"
          (if env.IsUUID opts.ID = true then opts.ID else opts.Name) = .ok path →
        (VolumeUpdate env opts t).2
          = t ++ [⟨"PUT", path,
              { data := some (.volumeUpdate opts), context := opts.Context }⟩]) ∧
      (∀ e, env.namespacedRefPath opts.Namespace "volumes"
          (if env.IsUUID opts.ID = true then opts.ID else opts.Name) = .error e →
        VolumeUpdate env opts t = ((none, some e), t)) := by
  constructor
  · intro path hpath
    cases ho : env.outcome
        ⟨"PUT", path, { data := some (.volumeUpdate opts), context := opts.Context }⟩ with
    | error e => simp [VolumeUpdate, updateRef, clientDo, VolumeAPIPrefix, hpath, ho]
    | ok resp =>
      cases hd : env.decodeVolume resp.Body <;>
        simp [VolumeUpdate, updateRef, clientDo, VolumeAPIPrefix, hpath, ho, hd]
  · intro e hpath
    simp [VolumeUpdate, updateRef, VolumeAPIPrefix, hpath]

/-- Witness of C10: an update addressed by UUID, one whose ID is no UUID and
which is addressed by name, and one with neither, whose path does not build. -/
theorem VolumeUpdate_request_witness :
    (VolumeUpdate (sampleEnv (okResponse "vol1"))
        ⟨"123e4567-e89b-12d3-a456-426614174000", "vol1", "default", some ⟨7⟩⟩ []).2
        = [] ++ [⟨"PUT", "volumes/default/123e4567-e89b-12d3-a456-426614174000",
            { data := some (.volumeUpdate
                ⟨"123e4567-e89b-12d3-a456-426614174000", "vol1", "default", some ⟨7⟩⟩),
              context := some ⟨7⟩ }⟩] ∧
      (VolumeUpdate (sampleEnv (okResponse "vol1")) ⟨"42", "vol1", "default", none⟩ []).2
        = [] ++ [⟨"PUT", "volumes/default/vol1",
            { data := some (.volumeUpdate ⟨"42", "vol1", "default", none⟩),
              context := none }⟩] ∧
      VolumeUpdate (sampleEnv (okResponse "vol1")) ⟨"42", "", "default", none⟩ []
        = ((none, some (.other "reference not set")), []) :=
  ⟨(VolumeUpdate_request (sampleEnv (okResponse "vol1"))
      ⟨"123e4567-e89b-12d3-a456-426614174000", "vol1", "default", some ⟨7⟩⟩ []).1
      "volumes/default/123e4567-e89b-12d3-a456-426614174000" (by rfl),
    (VolumeUpdate_request (sampleEnv (okResponse "vol1")) ⟨"42", "vol1", "default", none⟩ []).1
      "volumes/default/vol1" (by rfl),
    (VolumeUpdate_request (sampleEnv (okResponse "vol1")) ⟨"42", "", "default", none⟩ []).2
      (.other "reference not set") (by rfl)⟩

/-! ## The recording transport -/

theorem lookup_filter_ne (h : Header) (k k1 : String) (hne : k1 ≠ k) :
    (h.filter (fun e => e.1 != k)).lookup k1 = h.lookup k1 := by
  induction h with
  | nil => rfl
  | cons e h ih =>
    obtain ⟨a, vs⟩ := e
    by_cases hak : a = k
    · subst hak
      have hka : (k1 == a) = false := by simpa using hne
      simp [List.filter, List.lookup, hka, ih]
    · have hak1 : (a != k) = true := by simpa using hak
      simp only [List.filter, hak1, List.lookup]
      rw [ih]

theorem lookup_assign (h : Header) (k k1 : String) (vs : List String) :
    (Header.assign h k vs).lookup k1 = if k1 = k then some vs else h.lookup k1 := by
  unfold Header.assign
  by_cases hk : k1 = k
  · subst hk
    simp [List.lookup]
  · have hkb : (k1 == k) = false := by simpa using hk
    simp only [List.lookup, hkb, hk, if_false]
    exact lookup_filter_ne h k k1 hk

/-- The headers after a run of `Set` calls: a key whose canonical form is set
at least once, always with the value `v`, reads back as `v`. -/
theorem lookup_foldl_Set (l : List (String × String)) (h0 : Header) (ck v : String)
    (hex : ∃ e ∈ l, CanonicalMIMEHeaderKey e.1 = ck)
    (hall : ∀ e ∈ l, CanonicalMIMEHeaderKey e.1 = ck → e.2 = v) :
    (l.foldl (fun h kv => Header.Set h kv.1 kv.2) h0).lookup ck = some [v] := by
  induction l using List.reverseRecOn with
  | nil => simp at hex
  | append_singleton l x ih =>
    rw [List.foldl_append]
    simp only [List.foldl, Header.Set]
    rw [lookup_assign]
    by_cases hx : CanonicalMIMEHeaderKey x.1 = ck
    · have hv := hall x (by simp) hx
      simp [hx, hv]
    · have hx1 : ¬ ck = CanonicalMIMEHeaderKey x.1 := fun h => hx h.symm
      rw [if_neg hx1]
      apply ih
      · obtain ⟨e, he, hec⟩ := hex
        rcases List.mem_append.1 he with hl | hl
        · exact ⟨e, hl, hec⟩
        · simp at hl
          subst hl
          exact absurd hec hx
      · intro e he
        exact hall e (by simp [he])

theorem foldl_response_header (l : List (String × String)) (res : Response) :
    l.foldl (fun res kv => { res with Header := res.Header.Set kv.1 kv.2 }) res
      = { res with Header := l.foldl (fun h kv => Header.Set h kv.1 kv.2) res.Header } := by
  induction l generalizing res with
  | nil => rfl
  | cons x l ih => simp only [List.foldl]; rw [ih]

theorem RoundTrip_eq (rt : FakeRoundTripper) (r : Request) :
    rt.RoundTrip r
      = (({ StatusCode := rt.status, Body := rt.message,
            Header := rt.header.foldl (fun h kv => Header.Set h kv.1 kv.2) [] }, none),
          { rt with requests := rt.requests ++ [r] }) := by
  unfold FakeRoundTripper.RoundTrip
  simp only [foldl_response_header]

theorem roundTrips_eq (rt : FakeRoundTripper) (rs : List Request) :
    rt.roundTrips rs
      = (rs.map (fun _ => ((⟨rt.status, rt.message,
            rt.header.foldl (fun h kv => Header.Set h kv.1 kv.2) []⟩ : Response),
            (none : Option GoError))),
          { rt with requests := rt.requests ++ rs }) := by
  induction rs generalizing rt with
  | nil => simp [FakeRoundTripper.roundTrips]
  | cons r rs ih =>
    simp only [FakeRoundTripper.roundTrips, ih, RoundTrip_eq, List.map_cons,
      List.append_assoc, List.singleton_append]

/-- C6 as stated fails on the headers: with the two keys `a` and `A`
configured, both are stored under the canonical key `A`, and the response keeps
one of the two values only, whichever order the map is visited in; the
configured key `a` itself is no key of the response headers. -/
theorem RoundTrip_drops_colliding_header :
    (((⟨"", 200, [("a", "1"), ("A", "2")], []⟩ : FakeRoundTripper).RoundTrip
        ⟨"GET", "http://storageos-cluster/v0/"⟩).1.1.Header = [("A", ["2"])] ∧
      ((⟨"", 200, [("a", "1"), ("A", "2")], []⟩ : FakeRoundTripper).RoundTrip
        ⟨"GET", "http://storageos-cluster/v0/"⟩).1.1.Header.Get "a" ≠ "1") ∧
      (((⟨"", 200, [("A", "2"), ("a", "1")], []⟩ : FakeRoundTripper).RoundTrip
        ⟨"GET", "http://storageos-cluster/v0/"⟩).1.1.Header = [("A", ["1"])] ∧
      ((⟨"", 200, [("A", "2"), ("a", "1")], []⟩ : FakeRoundTripper).RoundTrip
        ⟨"GET", "http://storageos-cluster/v0/"⟩).1.1.Header.Get "A" ≠ "2") := by
  decide

/-- C6, amended: a run of `RoundTrip` calls on the requests `rs` leaves the
record equal to the earlier record followed by `rs` in arrival order (so to
`rs` itself from an empty or `Reset` recorder), one call appending exactly its
request, and leaves status, message and header untouched; every call returns a
nil error and a response with the configured status and message as status code
and body, in whose headers `Get(k)` is the configured value `v` for every
configured key `k` whose canonical form no other configured key shares;
`Reset` empties the record and leaves status, message and header unchanged. -/
theorem FakeRoundTripper_record_replay (rt : FakeRoundTripper) (rs : List Request)
    (r : Request) :
    (rt.roundTrips rs).2.requests = rt.requests ++ rs ∧
      (rt.Reset.roundTrips rs).2.requests = rs ∧
      (rt.RoundTrip r).2.requests = rt.requests ++ [r] ∧
      ((rt.roundTrips rs).2.status = rt.status ∧ (rt.roundTrips rs).2.message = rt.message ∧
        (rt.roundTrips rs).2.header = rt.header) ∧
      (rt.roundTrips rs).1.length = rs.length ∧
      (∀ o ∈ (rt.roundTrips rs).1,
        o.2 = none ∧ o.1.StatusCode = rt.status ∧ o.1.Body = rt.message ∧
        ∀ k v, (k, v) ∈ rt.header → (rt.header.map Prod.fst).Nodup →
          (∀ e ∈ rt.header, CanonicalMIMEHeaderKey e.1 = CanonicalMIMEHeaderKey k → e.1 = k) →
          o.1.Header.Get k = v) ∧
      (rt.Reset.requests = [] ∧ rt.Reset.status = rt.status ∧
        rt.Reset.message = rt.message ∧ rt.Reset.header = rt.header) := by
  refine ⟨?_, ?_, ?_, ?_, ?_, ?_, ?_⟩
  · rw [roundTrips_eq]
  · rw [roundTrips_eq]; simp [FakeRoundTripper.Reset]
  · rw [RoundTrip_eq]
  · rw [roundTrips_eq]; exact ⟨rfl, rfl, rfl⟩
  · rw [roundTrips_eq]; simp
  · rw [roundTrips_eq]
    intro o ho
    simp only [List.mem_map] at ho
    obtain ⟨_, _, rfl⟩ := ho
    refine ⟨rfl, rfl, rfl, ?_⟩
    intro k v hkv hnodup hcanon
    have hlook := lookup_foldl_Set rt.header [] (CanonicalMIMEHeaderKey k) v
      ⟨(k, v), hkv, rfl⟩ (by
        intro e he hec
        have hk : e.1 = k := hcanon e he hec
        have hinj := List.inj_on_of_nodup_map hnodup he hkv hk
        rw [hinj])
    simp only [Header.Get, hlook]
  · exact ⟨rfl, rfl, rfl, rfl⟩

/-- Witness of C6, amended: two requests through a transport configured with
one header. -/
theorem FakeRoundTripper_record_replay_witness :
    ((⟨"ok", 200, [("content-type", "application/json")], []⟩ : FakeRoundTripper).RoundTrip
        ⟨"GET", "http://storageos-cluster/v0/"⟩).1.1.Header.Get "content-type"
        = "application/json" ∧
      ((⟨"ok", 200, [("content-type", "application/json")], []⟩ : FakeRoundTripper).roundTrips
        [⟨"GET", "http://storageos-cluster/v0/"⟩,
          ⟨"GET", "http://storageos-cluster/v0/containers/ps"⟩]).2.requests
        = [] ++ [⟨"GET", "http://storageos-cluster/v0/"⟩,
          ⟨"GET", "http://storageos-cluster/v0/containers/ps"⟩] :=
  have h := FakeRoundTripper_record_replay
    ⟨"ok", 200, [("content-type", "application/json")], []⟩
    [⟨"GET", "http://storageos-cluster/v0/"⟩, ⟨"GET", "http://storageos-cluster/v0/containers/ps"⟩]
    ⟨"GET", "http://storageos-cluster/v0/"⟩
  ⟨(h.2.2.2.2.2.1
      ((⟨"ok", 200, [("content-type", "application/json")], []⟩ : FakeRoundTripper).RoundTrip
        ⟨"GET", "http://storageos-cluster/v0/"⟩).1 (by decide)).2.2.2
      "content-type" "application/json" (by decide) (by decide)
      (by
        intro e he _
        have h1 : e = ("content-type", "application/json") := by simpa using he
        rw [h1]),
    h.1⟩

/-! ## Path validation failures -/

/-- C11: when `namespacedPath` or `namespacedRefPath` fails with `e`, each of
`VolumeList`, `Volume`, `VolumeCreate`, `VolumeUpdate` and `VolumeDelete`
returns exactly `e`, with a nil result where it has one, and leaves the trace
of dispatcher calls as it was: the dispatcher is not invoked. -/
theorem path_error_short_circuits (env : Env Vol Usr) (e : GoError) (t : Trace)
    (lopts : ListOptions) (copts : VolumeCreateOptions) (uopts : VolumeUpdateOptions)
    (ns ref : String) :
    (env.namespacedPath lopts.Namespace "volumes" = .error e →
        VolumeList env lopts t = ((none, some e), t)) ∧
      (env.namespacedRefPath ns "volumes" ref = .error e →
        Volume env ns ref t = ((none, some e), t)) ∧
      (env.namespacedPath copts.Namespace "volumes" = .error e →
        VolumeCreate env copts t = ((none, some e), t)) ∧
      (env.namespacedRefPath uopts.Namespace "volumes"
          (if env.IsUUID uopts.ID = true then uopts.ID else uopts.Name) = .error e →
        VolumeUpdate env uopts t = ((none, some e), t)) ∧
      (env.namespacedRefPath ns "volumes" ref = .error e →
        VolumeDelete env ns ref t = (some e, t)) := by
  refine ⟨?_, ?_, ?_, ?_, ?_⟩
  · intro hpath
    simp [VolumeList, VolumeAPIPrefix, hpath]
  · intro hpath
    simp [Volume, VolumeAPIPrefix, hpath]
  · intro hpath
    simp [VolumeCreate, VolumeAPIPrefix, hpath]
  · intro hpath
    simp [VolumeUpdate, updateRef, VolumeAPIPrefix, hpath]
  · intro hpath
    simp [VolumeDelete, VolumeAPIPrefix, hpath]

/-- Witness of C11: every volume operation called without a namespace, against
a dispatcher that would answer 200: the validation error comes back and the
trace stays empty. -/
theorem path_error_short_circuits_witness :
    VolumeList (validatingEnv (okResponse "vol1")) ⟨"", "", "", none⟩ []
        = ((none, some (.other "namespace not set")), []) ∧
      Volume (validatingEnv (okResponse "vol1")) "" "vol1" []
        = ((none, some (.other "namespace not set")), []) ∧
      VolumeCreate (validatingEnv (okResponse "vol1")) ⟨"", none⟩ []
        = ((none, some (.other "namespace not set")), []) ∧
      VolumeUpdate (validatingEnv (okResponse "vol1")) ⟨"", "vol1", "", none⟩ []
        = ((none, some (.other "namespace not set")), []) ∧
      VolumeDelete (validatingEnv (okResponse "vol1")) "" "vol1" []
        = (some (.other "namespace not set"), []) :=
  have h := path_error_short_circuits (validatingEnv (okResponse "vol1"))
    (.other "namespace not set") [] ⟨"", "", "", none⟩ ⟨"", none⟩ ⟨"", "vol1", "", none⟩
    "" "vol1"
  ⟨h.1 (by rfl), h.2.1 (by rfl), h.2.2.1 (by rfl), h.2.2.2.1 (by rfl), h.2.2.2.2 (by rfl)⟩

end Storageos
